import Mathlib

/-!
# Verification of the blackbox testing harness (src/blackbox.py)

Shallow embedding of the execution and comparison engine of the
`blackbox` module: test-case construction (`Test.__init__`), the process
runner (`Test.run`), the single-binary output checker
(`OutputChecker.check`), the differential comparator
(`OutputComparator.check`), the batch driver (`test`), the stress driver
(`stress`), the interrupt controller (`SignalHandler`) and the display
excerpting helper (`__excerpt`).

Child processes are modelled as functions `String → RunResult` mapping
the staged input bytes to either a decoded output string or a timeout;
`print` calls are modelled as entries in report / event logs; `sys.exit`
and uncaught exceptions become explicit `DriverOutcome` values.  The
SIGINT flag set asynchronously by `SignalHandler.signal` is modelled by
a schedule `List Bool` saying for each driver-loop iteration whether an
interrupt was delivered during that iteration (and hence is visible at
that iteration's boundary check).
-/

/-- The whitespace characters stripped by Python's `str.strip()` for
ASCII data: space, tab, newline, carriage return, vertical tab, form
feed. -/
def isPySpace (c : Char) : Bool :=
  c = ' ' || c = '\t' || c = '\n' || c = '\r' || c = '\x0b' || c = '\x0c'

/-- Python's `s.strip()`: drop leading and trailing whitespace. -/
def pyStrip (s : String) : String :=
  ⟨((s.data.dropWhile isPySpace).reverse.dropWhile isPySpace).reverse⟩

/-- Python truthiness of an optional string, as used by the batch
driver's header (`if test.output:` at src/blackbox.py:182): `None` and
the empty string are falsy. -/
def pyTruthy : Option String → Bool
  | none => false
  | some s => !s.isEmpty

/-- Result of one child-process execution: either the decoded standard
output, or expiry of the time limit (`subprocess.TimeoutExpired`). -/
inductive RunResult where
  | ok (output : String)
  | timeout
deriving DecidableEq

/-- Whether a child run timed out. -/
def RunResult.isTimeout : RunResult → Bool
  | .timeout => true
  | .ok _ => false

/-- The exception hierarchy of src/blackbox.py:60-73.
`compareOutputMismatch` and `stressOutputMismatch` are the two
subclasses of `OutputMismatchException`. -/
inductive BBError where
  | timeLimitExpired (timeLimit : Nat)
  | compareOutputMismatch (output expectedOutput : String)
  | stressOutputMismatch (testedOutput trivialOutput : String)
deriving DecidableEq

/-- Whether an error is a `TimeLimitExpiredException`. -/
def BBError.isTLE : BBError → Bool
  | .timeLimitExpired _ => true
  | _ => false

/-- Whether an error is an `OutputMismatchException` (either subclass),
i.e. would be caught by `except OutputMismatchException`. -/
def BBError.isMismatch : BBError → Bool
  | .compareOutputMismatch _ _ => true
  | .stressOutputMismatch _ _ => true
  | _ => false

/-- A `Test` instance (src/blackbox.py:75-112).  `index` is assigned
from the process-wide counter `Test.count` at construction.  In the
Python source, when `outputData is None` the attributes
`ignoreMarginalWhitespace` is never assigned and `hasRightAnswer`
returns `False`; here `output = none` plays the role of
`hasRightAnswer() == False`, and the `ignoreMarginalWhitespace` field
is never read for such tests.  The display-only `tag` string is
omitted. -/
structure Test where
  index : Nat
  input : String
  output : Option String
  ignoreMarginalWhitespace : Bool
deriving DecidableEq

/-- `Test.__init__` (src/blackbox.py:96-112): increments the
process-wide counter `Test.count` (passed in and returned explicitly),
assigns `index`, and — when an expected output is supplied and
`ignoreMarginalWhitespace` is set — strips the expected output once at
construction time. -/
def Test.make (count : Nat) (inputData : String) (outputData : Option String)
    (ignoreMarginalWhitespace : Bool) : Test × Nat :=
  let count' := count + 1
  match outputData with
  | some o =>
    ({ index := count', input := inputData,
       output := some (if ignoreMarginalWhitespace then pyStrip o else o),
       ignoreMarginalWhitespace := ignoreMarginalWhitespace }, count')
  | none =>
    ({ index := count', input := inputData, output := none,
       ignoreMarginalWhitespace := ignoreMarginalWhitespace }, count')

/-- `hasRightAnswer` as set up by the constructor: `True` exactly when
`outputData is not None` (src/blackbox.py:104-110). -/
def Test.hasRightAnswer (t : Test) : Bool := t.output.isSome

/-- `Test.run` (src/blackbox.py:113-128): run the child on the staged
input; on `subprocess.TimeoutExpired` raise
`TimeLimitExpiredException(timeLimit)`, otherwise return the decoded
output. The child is modelled as a function from the staged input bytes
to a `RunResult`. -/
def Test.run (child : String → RunResult) (input : String) (timeLimit : Nat) :
    Except BBError String :=
  match child input with
  | .ok out => .ok out
  | .timeout => .error (.timeLimitExpired timeLimit)

/-- The default comparison function of `OutputChecker`: `operator.eq`
(src/blackbox.py:133). -/
def defaultEqual (a b : String) : Bool := a == b

/-- `OutputChecker.check` (src/blackbox.py:134-141): run the tested
binary on the test's input; if the test has a right answer, strip the
actual output when `ignoreMarginalWhitespace` is set and compare
`equal(test.output, output)`, raising `CompareOutputMismatchException`
on disagreement; finally return the (possibly stripped) output. -/
def OutputChecker.check (equal : String → String → Bool) (t : Test)
    (child : String → RunResult) (timeLimit : Nat) : Except BBError String :=
  match Test.run child t.input timeLimit with
  | .error e => .error e
  | .ok output =>
    match t.output with
    | some expected =>
      let output := if t.ignoreMarginalWhitespace then pyStrip output else output
      if equal expected output then .ok output
      else .error (.compareOutputMismatch output expected)
    | none => .ok output

/-- Verdict taxonomy of the spec's Run Result layered on
`OutputChecker.check`: `pass` when the check succeeds on a test with an
expected output, `unjudged` when the test has none, `fail` on a
mismatch, `timeout` on time-limit expiry. -/
inductive Verdict where
  | pass | fail | unjudged | timeout
deriving DecidableEq

/-- The verdict produced by one `OutputChecker.check` invocation. -/
def OutputChecker.verdict (equal : String → String → Bool) (t : Test)
    (child : String → RunResult) (timeLimit : Nat) : Verdict :=
  match OutputChecker.check equal t child timeLimit with
  | .ok _ => if t.hasRightAnswer then .pass else .unjudged
  | .error (.timeLimitExpired _) => .timeout
  | .error _ => .fail

/-- `__excerpt` (src/blackbox.py:57-58): truncate a string to the
display limit of 60 characters with a three-character ellipsis.  The
Python source wraps the chosen string in `repr(·)`, which only adds
quoting for display and is omitted here. -/
def excerpt (msg : String) : String :=
  if msg.length < 60 then msg else msg.take (60 - 3) ++ "..."

/-- The condition `if test.output:` guarding the batch driver's
`Expected output:` header line (src/blackbox.py:182): Python
truthiness, so neither `None` nor the empty string prints the line. -/
def batchHeaderShowsExpected (t : Test) : Bool := pyTruthy t.output

/-- The two executables of a differential comparison. -/
inductive Binary where
  | tested | trivial
deriving DecidableEq

/-- Observable staging/spawning events of the comparator.
`stage data` models `TemporaryFileStorage.__call__` rewriting the
shared buffer (seek 0, truncate, write); `spawn b data` models a
`subprocess.check_output` invocation of binary `b` whose standard input
is the buffer rewound to its start (`TemporaryFileStorage.buffer`,
src/blackbox.py:53-55). -/
inductive Event where
  | stage (data : String)
  | spawn (b : Binary) (stagedInput : String)
deriving DecidableEq

/-- Number of child processes spawned in an event trace. -/
def countSpawns (tr : List Event) : Nat :=
  tr.countP fun e => match e with | .spawn _ _ => true | _ => false

/-- The default comparison of `OutputComparator` when no custom
`compare` is given and `ignoreMarginalWhitespace` holds
(src/blackbox.py:150-151): strip both outputs, then compare. -/
def comparatorDefaultEqual (output1 output2 : String) : Bool :=
  pyStrip output1 == pyStrip output2

/-- `OutputComparator.check` (src/blackbox.py:156-162): stage the
test's input once in the comparator's shared buffer, run the tested
binary on it, then run the trivial binary on the same staged content
(each run rewinds the buffer to the start), and raise
`StressOutputMismatchException` when the comparison function rejects
the pair of outputs.  A timeout of either run propagates as
`TimeLimitExpiredException` (after the tested run's timeout the trivial
binary is not run at all).  Returns the event trace together with the
outcome. -/
def OutputComparator.check (equal : String → String → Bool) (t : Test)
    (testedChild trivialChild : String → RunResult) (timeLimit : Nat) :
    List Event × Except BBError Unit :=
  let staged := t.input
  match testedChild staged with
  | .timeout =>
    ([.stage staged, .spawn .tested staged], .error (.timeLimitExpired timeLimit))
  | .ok testedOutput =>
    match trivialChild staged with
    | .timeout =>
      ([.stage staged, .spawn .tested staged, .spawn .trivial staged],
       .error (.timeLimitExpired timeLimit))
    | .ok trivialOutput =>
      ([.stage staged, .spawn .tested staged, .spawn .trivial staged],
       if equal testedOutput trivialOutput then .ok ()
       else .error (.stressOutputMismatch testedOutput trivialOutput))

/-- `SignalHandler.signal` (src/blackbox.py:33-37) acting on the
`signalled` flag: a first SIGINT sets the flag; a second SIGINT, while
the flag is already set, forces `sys.exit(0)` (returned as `some 0`)
and leaves the flag as it is. -/
def SignalHandler.signal (signalled : Bool) : Bool × Option Nat :=
  if signalled then (signalled, some 0) else (true, none)

/-- How a driver invocation ends: the loop ran to completion and the
function returned, `sys.exit code` was called, or an exception escaped
the driver uncaught. -/
inductive DriverOutcome where
  | finished
  | exited (code : Nat)
  | uncaught (e : BBError)
deriving DecidableEq

/-- The per-case verdict line printed by the batch driver:
`Passed` (printed whenever `check` raises nothing, judged or not),
`Failed` on a mismatch, `Failed by timeout` on time-limit expiry. -/
inductive Report where
  | passed | failed | failedByTimeout
deriving DecidableEq

/-- Result of a batch-driver invocation: how it ended, the final state
of the SIGINT flag, and the verdict lines printed, one per test case
actually executed, in order. -/
structure BatchResult where
  outcome : DriverOutcome
  flag : Bool
  reports : List Report
deriving DecidableEq

/-- Head of the interrupt schedule: whether a SIGINT is delivered
during the current loop iteration. -/
def sigHead : List Bool → Bool
  | [] => false
  | b :: _ => b

/-- Tail of the interrupt schedule. -/
def sigTail : List Bool → List Bool
  | [] => []
  | _ :: bs => bs

/-- The batch driver `test` (src/blackbox.py:164-204).  Per test case:
run `OutputChecker.check`; on `TimeLimitExpiredException` print
`Failed by timeout` and `sys.exit(1)` if `haltOnError`, else `continue`
(which skips the loop-end `signalled` check); on
`OutputMismatchException` print `Failed` and `sys.exit(1)` if
`haltOnError`, else fall through to the loop-end check; on success
print `Passed` and fall through.  At the loop end, `sys.exit(0)` if
`signalHandler.signalled`.  `sigs` schedules SIGINT delivery per
iteration (visible at that iteration's boundary check); `flag` is the
`signalled` flag on entry. -/
def batchRun (haltOnError : Bool) (equal : String → String → Bool)
    (child : String → RunResult) (timeLimit : Nat) :
    List Test → List Bool → Bool → BatchResult
  | [], _, flag => ⟨.finished, flag, []⟩
  | t :: rest, sigs, flag =>
    let flag' := flag || sigHead sigs
    match OutputChecker.check equal t child timeLimit with
    | .error (.timeLimitExpired _) =>
      if haltOnError then ⟨.exited 1, flag', [.failedByTimeout]⟩
      else
        let r := batchRun haltOnError equal child timeLimit rest (sigTail sigs) flag'
        ⟨r.outcome, r.flag, .failedByTimeout :: r.reports⟩
    | .error (.compareOutputMismatch _ _) =>
      if haltOnError then ⟨.exited 1, flag', [.failed]⟩
      else if flag' then ⟨.exited 0, flag', [.failed]⟩
      else
        let r := batchRun haltOnError equal child timeLimit rest (sigTail sigs) flag'
        ⟨r.outcome, r.flag, .failed :: r.reports⟩
    | .error (.stressOutputMismatch _ _) =>
      if haltOnError then ⟨.exited 1, flag', [.failed]⟩
      else if flag' then ⟨.exited 0, flag', [.failed]⟩
      else
        let r := batchRun haltOnError equal child timeLimit rest (sigTail sigs) flag'
        ⟨r.outcome, r.flag, .failed :: r.reports⟩
    | .ok _ =>
      if flag' then ⟨.exited 0, flag', [.passed]⟩
      else
        let r := batchRun haltOnError equal child timeLimit rest (sigTail sigs) flag'
        ⟨r.outcome, r.flag, .passed :: r.reports⟩

/-- An item yielded by the stress driver's test generator: either a raw
string or a ready-made `Test` instance. -/
inductive GenItem where
  | raw (s : String)
  | test (t : Test)
deriving DecidableEq

/-- The stress loop's wrapping step (src/blackbox.py:221-222): a value
that is not a `Test` is wrapped via `Test(str(test))`, which increments
the process-wide `Test.count`; a `Test` instance passes through
unchanged. -/
def wrapItem (count : Nat) : GenItem → Test × Nat
  | .test t => (t, count)
  | .raw s => Test.make count s none true

/-- Result of a stress-driver invocation: how it ended, the final value
of the process-wide `Test.count`, the final SIGINT flag, the number of
child processes spawned, the `N` printed in the
`N tests passed. No difference spotted.` summary (if printed), and the
number of cases whose comparison completed without mismatch in this
run. -/
structure StressResult where
  outcome : DriverOutcome
  testCount : Nat
  flag : Bool
  spawned : Nat
  summaryN : Option Nat
  completed : Nat
deriving DecidableEq

/-- The loop of the stress driver (src/blackbox.py:219-235).  Per
generator item: wrap raw strings into `Test`s; run the comparator; on
success, if `signalHandler.signalled`, print the summary with the
process-wide `Test.count` and `sys.exit(0)`, else continue; on
`OutputMismatchException` print the diagnostic and `sys.exit(1)`; a
`TimeLimitExpiredException` is caught by no handler in `stress` and
escapes uncaught.  When the generator is exhausted the function
returns. -/
def stressLoop (equal : String → String → Bool)
    (testedChild trivialChild : String → RunResult) (timeLimit : Nat) :
    List GenItem → List Bool → Nat → Bool → Nat → Nat → StressResult
  | [], _, count, flag, spawned, passed =>
    ⟨.finished, count, flag, spawned, none, passed⟩
  | item :: rest, sigs, count, flag, spawned, passed =>
    let flag' := flag || sigHead sigs
    let t := (wrapItem count item).1
    let count' := (wrapItem count item).2
    let cr := OutputComparator.check equal t testedChild trivialChild timeLimit
    let spawned' := spawned + countSpawns cr.1
    match cr.2 with
    | .ok _ =>
      if flag' then ⟨.exited 0, count', flag', spawned', some count', passed + 1⟩
      else stressLoop equal testedChild trivialChild timeLimit rest (sigTail sigs)
        count' flag' spawned' (passed + 1)
    | .error (.stressOutputMismatch _ _) =>
      ⟨.exited 1, count', flag', spawned', none, passed⟩
    | .error (.compareOutputMismatch _ _) =>
      ⟨.exited 1, count', flag', spawned', none, passed⟩
    | .error (.timeLimitExpired l) =>
      ⟨.uncaught (.timeLimitExpired l), count', flag', spawned', none, passed⟩

/-- The stress driver `stress` (src/blackbox.py:206-235): when standard
output is not a terminal, print the admonition and `sys.exit(2)` before
constructing the comparator or touching any test; otherwise run the
loop.  `count` is the process-wide `Test.count` on entry, `flag` the
SIGINT flag on entry. -/
def stress (isatty : Bool) (equal : String → String → Bool)
    (testedChild trivialChild : String → RunResult) (timeLimit : Nat)
    (gen : List GenItem) (sigs : List Bool) (count : Nat) (flag : Bool) :
    StressResult :=
  if isatty then
    stressLoop equal testedChild trivialChild timeLimit gen sigs count flag 0 0
  else
    ⟨.exited 2, count, flag, 0, none, 0⟩

/-- Whether a checker run ended in `TimeLimitExpiredException`. -/
def checkTimedOut : Except BBError String → Bool
  | .error (.timeLimitExpired _) => true
  | _ => false

/-- Whether a generator prefix consists only of raw strings (so that
every item gets wrapped by the stress loop and counted in
`Test.count`). -/
def allRaw : List GenItem → Bool
  | [] => true
  | .raw _ :: rest => allRaw rest
  | .test _ :: _ => false

/-!
## Theorems

Helper lemmas first (shared between claims), then one theorem per
claim, each with its witness or counterexample where called for.
-/

/-- Stripping the empty string yields the empty string. -/
theorem pyStrip_empty : pyStrip "" = "" := rfl

/-- Under the default equality, the verdict on a test built with
expected output `expected` (whitespace-insensitive) and a child that
prints `actual` is `pass` iff the stripped strings agree. -/
theorem verdict_pass_iff_aux (count : Nat) (inputData expected actual : String)
    (timeLimit : Nat) :
    OutputChecker.verdict defaultEqual (Test.make count inputData (some expected) true).1
        (fun _ => .ok actual) timeLimit = .pass ↔ pyStrip actual = pyStrip expected := by
  simp only [OutputChecker.verdict, OutputChecker.check, Test.make, Test.run,
    Test.hasRightAnswer, defaultEqual]
  by_cases h : pyStrip expected = pyStrip actual
  · simp [h]
  · have h' : ¬ pyStrip actual = pyStrip expected := fun hc => h hc.symm
    simp [h, h']

/-- Under the default equality, the check raises
`CompareOutputMismatchException` with the stripped outputs exactly when
the stripped strings differ. -/
theorem check_mismatch_iff_aux (count : Nat) (inputData expected actual : String)
    (timeLimit : Nat) :
    OutputChecker.check defaultEqual (Test.make count inputData (some expected) true).1
        (fun _ => .ok actual) timeLimit =
      .error (.compareOutputMismatch (pyStrip actual) (pyStrip expected)) ↔
        ¬ pyStrip actual = pyStrip expected := by
  simp only [OutputChecker.check, Test.make, Test.run, defaultEqual]
  by_cases h : pyStrip expected = pyStrip actual
  · simp [h]
  · have h' : ¬ pyStrip actual = pyStrip expected := fun hc => h hc.symm
    simp [h, h']

/-- A test whose `output` is present is never `unjudged`. -/
theorem verdict_ne_unjudged_aux (equal : String → String → Bool) (t : Test)
    (child : String → RunResult) (timeLimit : Nat) (h : t.output.isSome = true) :
    OutputChecker.verdict equal t child timeLimit ≠ .unjudged := by
  unfold OutputChecker.verdict
  split
  · simp [Test.hasRightAnswer, h]
  · simp
  · simp

/-- The batch driver catches every modelled exception: no `BBError`
escapes `batchRun` uncaught. -/
theorem batchRun_no_uncaught (haltOnError : Bool) (equal : String → String → Bool)
    (child : String → RunResult) (timeLimit : Nat) :
    ∀ (tests : List Test) (sigs : List Bool) (flag : Bool) (e : BBError),
      (batchRun haltOnError equal child timeLimit tests sigs flag).outcome ≠ .uncaught e := by
  intro tests
  induction tests with
  | nil =>
    intro sigs flag e
    simp [batchRun]
  | cons t rest ih =>
    intro sigs flag e
    cases hc : OutputChecker.check equal t child timeLimit with
    | ok o =>
      simp only [batchRun, hc]
      split
      · simp
      · exact ih _ _ _
    | error err =>
      cases err with
      | timeLimitExpired l =>
        simp only [batchRun, hc]
        split
        · simp
        · exact ih _ _ _
      | compareOutputMismatch a b =>
        simp only [batchRun, hc]
        split
        · simp
        · split
          · simp
          · exact ih _ _ _
      | stressOutputMismatch a b =>
        simp only [batchRun, hc]
        split
        · simp
        · split
          · simp
          · exact ih _ _ _

/-- The batch driver never clears the SIGINT flag: a run entered with
the flag set ends with the flag still set. -/
theorem batchRun_flag_true (haltOnError : Bool) (equal : String → String → Bool)
    (child : String → RunResult) (timeLimit : Nat) :
    ∀ (tests : List Test) (sigs : List Bool),
      (batchRun haltOnError equal child timeLimit tests sigs true).flag = true := by
  intro tests
  induction tests with
  | nil =>
    intro sigs
    simp [batchRun]
  | cons t rest ih =>
    intro sigs
    cases hc : OutputChecker.check equal t child timeLimit with
    | ok o =>
      simp only [batchRun, hc, Bool.true_or]
      split
      · simp
      · exact ih _
    | error err =>
      cases err with
      | timeLimitExpired l =>
        simp only [batchRun, hc, Bool.true_or]
        split
        · simp
        · exact ih _
      | compareOutputMismatch a b =>
        simp only [batchRun, hc, Bool.true_or]
        split
        · simp
        · split
          · simp
          · exact ih _
      | stressOutputMismatch a b =>
        simp only [batchRun, hc, Bool.true_or]
        split
        · simp
        · split
          · simp
          · exact ih _

/-- The stress loop never clears the SIGINT flag either. -/
theorem stressLoop_flag_true (equal : String → String → Bool)
    (testedChild trivialChild : String → RunResult) (timeLimit : Nat) :
    ∀ (gen : List GenItem) (sigs : List Bool) (count : Nat) (spawned passed : Nat),
      (stressLoop equal testedChild trivialChild timeLimit gen sigs count true
        spawned passed).flag = true := by
  intro gen
  induction gen with
  | nil =>
    intro sigs count spawned passed
    simp [stressLoop]
  | cons item rest ih =>
    intro sigs count spawned passed
    cases hcr : (OutputComparator.check equal (wrapItem count item).1 testedChild
        trivialChild timeLimit).2 with
    | ok u =>
      simp only [stressLoop, hcr, Bool.true_or]
      split
      · simp
      · exact ih _ _ _ _
    | error err =>
      cases err with
      | timeLimitExpired l => simp [stressLoop, hcr]
      | compareOutputMismatch a b => simp [stressLoop, hcr]
      | stressOutputMismatch a b => simp [stressLoop, hcr]

/-- When the stress loop prints the summary, it exits with status 0 and
the printed `N` is the final value of the process-wide `Test.count`. -/
theorem stressLoop_summary_is_testCount (equal : String → String → Bool)
    (testedChild trivialChild : String → RunResult) (timeLimit : Nat) :
    ∀ (gen : List GenItem) (sigs : List Bool) (count : Nat) (flag : Bool)
      (spawned passed n : Nat),
      (stressLoop equal testedChild trivialChild timeLimit gen sigs count flag
        spawned passed).summaryN = some n →
      (stressLoop equal testedChild trivialChild timeLimit gen sigs count flag
        spawned passed).outcome = .exited 0 ∧
      n = (stressLoop equal testedChild trivialChild timeLimit gen sigs count flag
        spawned passed).testCount := by
  intro gen
  induction gen with
  | nil =>
    intro sigs count flag spawned passed n h
    simp [stressLoop] at h
  | cons item rest ih =>
    intro sigs count flag spawned passed n h
    cases hcr : (OutputComparator.check equal (wrapItem count item).1 testedChild
        trivialChild timeLimit).2 with
    | ok u =>
      simp only [stressLoop, hcr] at h ⊢
      cases hf : (flag || sigHead sigs) with
      | true =>
        simp only [hf, if_true] at h ⊢
        simp at h
        simp [h]
      | false =>
        simp only [hf, if_false] at h ⊢
        exact ih _ _ _ _ _ _ h
    | error err =>
      cases err with
      | timeLimitExpired l => simp [stressLoop, hcr] at h
      | compareOutputMismatch a b => simp [stressLoop, hcr] at h
      | stressOutputMismatch a b => simp [stressLoop, hcr] at h

/-- When the stress loop is entered with the process-wide counter equal
to its pass count (as happens when the whole process has only ever
constructed Tests for this run) and the generator yields only raw
strings, the summary's `N` is the number of cases this run completed
without mismatch. -/
theorem stressLoop_summary_is_completed (equal : String → String → Bool)
    (testedChild trivialChild : String → RunResult) (timeLimit : Nat) :
    ∀ (gen : List GenItem) (sigs : List Bool) (count : Nat) (flag : Bool)
      (spawned passed n : Nat),
      allRaw gen = true → count = passed →
      (stressLoop equal testedChild trivialChild timeLimit gen sigs count flag
        spawned passed).summaryN = some n →
      n = (stressLoop equal testedChild trivialChild timeLimit gen sigs count flag
        spawned passed).completed := by
  intro gen
  induction gen with
  | nil =>
    intro sigs count flag spawned passed n _ _ h
    simp [stressLoop] at h
  | cons item rest ih =>
    intro sigs count flag spawned passed n hraw hcnt h
    cases item with
    | test t => simp [allRaw] at hraw
    | raw s =>
      have hraw' : allRaw rest = true := by simpa [allRaw] using hraw
      cases hcr : (OutputComparator.check equal (wrapItem count (.raw s)).1 testedChild
          trivialChild timeLimit).2 with
      | ok u =>
        simp only [stressLoop, hcr] at h ⊢
        cases hf : (flag || sigHead sigs) with
        | true =>
          simp only [hf, if_true] at h ⊢
          simp only [wrapItem, Test.make, Option.some.injEq] at h
          subst h
          simp [wrapItem, Test.make, hcnt]
        | false =>
          simp only [hf, if_false] at h ⊢
          refine ih _ _ _ _ _ _ hraw' ?_ h
          simp [wrapItem, Test.make, hcnt]
      | error err =>
        cases err with
        | timeLimitExpired l => simp [stressLoop, hcr] at h
        | compareOutputMismatch a b => simp [stressLoop, hcr] at h
        | stressOutputMismatch a b => simp [stressLoop, hcr] at h

/-- C1: For a Test constructed with a (non-absent) expected output and
`ignoreMarginalWhitespace = true`, under the default equality the
checker passes iff the stripped actual equals the stripped expected
output, and raises `CompareOutputMismatchException` (carrying stripped
actual and stripped expected) exactly when they differ. -/
theorem checker_pass_iff_strip_eq (count : Nat) (inputData expected actual : String)
    (timeLimit : Nat) :
    (OutputChecker.verdict defaultEqual (Test.make count inputData (some expected) true).1
        (fun _ => .ok actual) timeLimit = .pass ↔ pyStrip actual = pyStrip expected) ∧
    (OutputChecker.check defaultEqual (Test.make count inputData (some expected) true).1
        (fun _ => .ok actual) timeLimit =
      .error (.compareOutputMismatch (pyStrip actual) (pyStrip expected)) ↔
        ¬ pyStrip actual = pyStrip expected) :=
  ⟨verdict_pass_iff_aux count inputData expected actual timeLimit,
   check_mismatch_iff_aux count inputData expected actual timeLimit⟩

/-- C7: A differential comparison stages the test's input once, then
spawns the tested binary and only afterwards the trivial binary, and
every spawned child reads exactly that staged input from its start;
when the tested run times out the trivial binary is not spawned at
all. -/
theorem comparator_tested_first_same_staged_input
    (equal : String → String → Bool) (t : Test)
    (testedChild trivialChild : String → RunResult) (timeLimit : Nat) :
    (OutputComparator.check equal t testedChild trivialChild timeLimit).1 =
      if (testedChild t.input).isTimeout then
        [.stage t.input, .spawn .tested t.input]
      else
        [.stage t.input, .spawn .tested t.input, .spawn .trivial t.input] := by
  unfold OutputComparator.check
  cases h : testedChild t.input with
  | timeout => simp [h, RunResult.isTimeout]
  | ok o =>
    cases h2 : trivialChild t.input with
    | timeout => simp [h, h2, RunResult.isTimeout]
    | ok o2 => simp [h, h2, RunResult.isTimeout]

/-- C9: Invoking the stress driver without a terminal on standard
output exits with code 2 having spawned no child process, counted no
test, printed no summary, and left the process-wide counter and the
SIGINT flag exactly as they were. -/
theorem stress_non_tty_exits_2 (equal : String → String → Bool)
    (testedChild trivialChild : String → RunResult) (timeLimit : Nat)
    (gen : List GenItem) (sigs : List Bool) (count : Nat) (flag : Bool) :
    stress false equal testedChild trivialChild timeLimit gen sigs count flag =
      ⟨.exited 2, count, flag, 0, none, 0⟩ := rfl

/-- C10: A Test constructed with the empty string as expected output is
judged: under the default equality its verdict is `pass` exactly when
the actual output strips to the empty string, it is never `unjudged`,
and yet the batch driver's header prints no `Expected output:` line for
it. -/
theorem empty_expected_output_is_judged (count : Nat) (inputData actual : String)
    (timeLimit : Nat) :
    (OutputChecker.verdict defaultEqual (Test.make count inputData (some "") true).1
        (fun _ => .ok actual) timeLimit = .pass ↔ pyStrip actual = "") ∧
    OutputChecker.verdict defaultEqual (Test.make count inputData (some "") true).1
        (fun _ => .ok actual) timeLimit ≠ .unjudged ∧
    batchHeaderShowsExpected (Test.make count inputData (some "") true).1 = false := by
  refine ⟨?_, ?_, ?_⟩
  · have h := verdict_pass_iff_aux count inputData "" actual timeLimit
    rwa [pyStrip_empty] at h
  · apply verdict_ne_unjudged_aux
    simp [Test.make]
  · rfl

/-- C8 (corrected): the excerpting function shows a string verbatim iff
its length is at most 59, and replaces any string of length at least 60
by its first 57 characters followed by an ellipsis; the checker's
comparison is determined by the full (stripped) strings, with
truncation playing no part in it. -/
theorem excerpt_truncates_iff_at_least_60 :
    (∀ msg : String, msg.length < 60 → excerpt msg = msg) ∧
    (∀ msg : String, 60 ≤ msg.length → excerpt msg = msg.take 57 ++ "...") ∧
    (∀ (count : Nat) (inputData expected actual : String) (timeLimit : Nat),
       OutputChecker.verdict defaultEqual
           (Test.make count inputData (some expected) true).1
           (fun _ => .ok actual) timeLimit = .pass ↔
         pyStrip actual = pyStrip expected) := by
  refine ⟨?_, ?_, ?_⟩
  · intro msg h
    simp [excerpt, h]
  · intro msg h
    have h' : ¬ msg.length < 60 := Nat.not_lt.mpr h
    simp [excerpt, h']
  · intro count inputData expected actual timeLimit
    exact verdict_pass_iff_aux count inputData expected actual timeLimit

/-- C8 witness: a short string is shown verbatim and a long one gets
the ellipsis. -/
theorem excerpt_truncates_witness :
    excerpt "hi" = "hi" ∧
    excerpt (String.mk (List.replicate 61 'b')) =
      (String.mk (List.replicate 61 'b')).take 57 ++ "..." := by
  refine ⟨excerpt_truncates_iff_at_least_60.1 "hi" (by decide),
    excerpt_truncates_iff_at_least_60.2.1 (String.mk (List.replicate 61 'b')) (by decide)⟩

set_option maxRecDepth 4000 in
/-- C8 counterexample: a string of length exactly 60 — which the claim
says is shown in full — is truncated by the code. -/
theorem excerpt_at_length_60_cex :
    (String.mk (List.replicate 60 'a')).length = 60 ∧
    excerpt (String.mk (List.replicate 60 'a')) ≠ String.mk (List.replicate 60 'a') := by
  decide

/-- C4: A Test constructed without an expected output is never judged:
for every comparison function, every actual output and every time
limit, the check returns the output unchanged (no exception), and the
verdict is `unjudged`, never `fail`. -/
theorem checker_no_expected_unjudged (equal : String → String → Bool)
    (count : Nat) (inputData : String) (imw : Bool) (actual : String)
    (timeLimit : Nat) :
    OutputChecker.check equal (Test.make count inputData none imw).1
        (fun _ => .ok actual) timeLimit = .ok actual ∧
    OutputChecker.verdict equal (Test.make count inputData none imw).1
        (fun _ => .ok actual) timeLimit = .unjudged := by
  simp [OutputChecker.check, OutputChecker.verdict, Test.make, Test.run,
    Test.hasRightAnswer]

/-- C2 (corrected): a `TimeLimitExpiredException` raised by a child run
is caught and converted into a reported `Failed by timeout` verdict in
the batch driver (and no modelled exception ever escapes the batch
driver uncaught), but in the stress driver it is caught by no handler
and propagates uncaught out of the driver. -/
theorem tle_batch_caught_stress_uncaught :
    (∀ (haltOnError : Bool) (equal : String → String → Bool)
       (child : String → RunResult) (timeLimit : Nat)
       (tests : List Test) (sigs : List Bool) (flag : Bool) (e : BBError),
       (batchRun haltOnError equal child timeLimit tests sigs flag).outcome ≠
         .uncaught e) ∧
    (∀ (haltOnError : Bool) (equal : String → String → Bool)
       (child : String → RunResult) (timeLimit : Nat)
       (t : Test) (rest : List Test) (sigs : List Bool) (flag : Bool),
       checkTimedOut (OutputChecker.check equal t child timeLimit) = true →
       (batchRun haltOnError equal child timeLimit (t :: rest) sigs flag).reports.head? =
         some .failedByTimeout) ∧
    (∀ (equal : String → String → Bool) (testedChild trivialChild : String → RunResult)
       (timeLimit : Nat) (item : GenItem) (rest : List GenItem) (sigs : List Bool)
       (count : Nat) (flag : Bool),
       (OutputComparator.check equal (wrapItem count item).1 testedChild trivialChild
           timeLimit).2 = .error (.timeLimitExpired timeLimit) →
       (stress true equal testedChild trivialChild timeLimit (item :: rest) sigs count
           flag).outcome = .uncaught (.timeLimitExpired timeLimit)) := by
  refine ⟨batchRun_no_uncaught, ?_, ?_⟩
  · intro halt equal child tl t rest sigs flag h
    cases hc : OutputChecker.check equal t child tl with
    | ok o =>
      rw [hc] at h
      simp [checkTimedOut] at h
    | error err =>
      cases err with
      | timeLimitExpired l =>
        simp only [batchRun, hc]
        split <;> simp
      | compareOutputMismatch a b =>
        rw [hc] at h
        simp [checkTimedOut] at h
      | stressOutputMismatch a b =>
        rw [hc] at h
        simp [checkTimedOut] at h
  · intro equal tc tv tl item rest sigs count flag h
    simp [stress, stressLoop, h]

/-- C2 witness: a timing-out child yields the reported timeout verdict
in the batch driver and the uncaught exception in the stress driver. -/
theorem tle_batch_caught_stress_uncaught_witness :
    (batchRun false defaultEqual (fun _ => .timeout) 1
        [(Test.make 0 "i" (some "o") true).1] [] false).reports.head? =
      some .failedByTimeout ∧
    (stress true defaultEqual (fun _ => .timeout) (fun _ => .ok "out") 2
        [.raw "y"] [] 3 false).outcome = .uncaught (.timeLimitExpired 2) :=
  ⟨tle_batch_caught_stress_uncaught.2.1 false defaultEqual (fun _ => .timeout) 1
      (Test.make 0 "i" (some "o") true).1 [] [] false rfl,
   tle_batch_caught_stress_uncaught.2.2 defaultEqual (fun _ => .timeout)
      (fun _ => .ok "out") 2 (.raw "y") [] [] 3 false rfl⟩

/-- C2 counterexample: with a tested binary that always times out, the
stress driver ends with `TimeLimitExpiredException` escaping uncaught —
not with a caught, reported failing verdict as the claim states for
both driver loops. -/
theorem stress_tle_uncaught_cex :
    (stress true defaultEqual (fun _ => .timeout) (fun _ => .ok "") 1
        [.raw "x"] [] 0 false).outcome = .uncaught (.timeLimitExpired 1) := rfl

/-- C3 (corrected): in the batch driver with `haltOnError = false`,
after a case that completes by pass or by mismatch the driver checks
the SIGINT flag and, if it is set, stops immediately with exit status 0
having reported only that case; but after a case that fails by timeout
the `continue` statement skips the boundary check and the driver
proceeds directly to the next case. -/
theorem batch_boundary_check_noHalt (equal : String → String → Bool)
    (child : String → RunResult) (timeLimit : Nat) (t : Test) (rest : List Test)
    (sigs : List Bool) (flag : Bool) (hsig : (flag || sigHead sigs) = true) :
    (checkTimedOut (OutputChecker.check equal t child timeLimit) = false →
      ∃ rep, batchRun false equal child timeLimit (t :: rest) sigs flag =
        ⟨.exited 0, true, [rep]⟩) ∧
    (checkTimedOut (OutputChecker.check equal t child timeLimit) = true →
      batchRun false equal child timeLimit (t :: rest) sigs flag =
        ⟨(batchRun false equal child timeLimit rest (sigTail sigs) true).outcome,
         (batchRun false equal child timeLimit rest (sigTail sigs) true).flag,
         .failedByTimeout ::
           (batchRun false equal child timeLimit rest (sigTail sigs) true).reports⟩) := by
  constructor
  · intro hnt
    cases hc : OutputChecker.check equal t child timeLimit with
    | ok o =>
      refine ⟨.passed, ?_⟩
      simp [batchRun, hc, hsig]
    | error err =>
      cases err with
      | timeLimitExpired l =>
        rw [hc] at hnt
        simp [checkTimedOut] at hnt
      | compareOutputMismatch a b =>
        refine ⟨.failed, ?_⟩
        simp [batchRun, hc, hsig]
      | stressOutputMismatch a b =>
        refine ⟨.failed, ?_⟩
        simp [batchRun, hc, hsig]
  · intro ht
    cases hc : OutputChecker.check equal t child timeLimit with
    | ok o =>
      rw [hc] at ht
      simp [checkTimedOut] at ht
    | error err =>
      cases err with
      | timeLimitExpired l =>
        simp [batchRun, hc, hsig]
      | compareOutputMismatch a b =>
        rw [hc] at ht
        simp [checkTimedOut] at ht
      | stressOutputMismatch a b =>
        rw [hc] at ht
        simp [checkTimedOut] at ht

/-- C3 witness: with the flag set during the first iteration, a passing
case stops the run immediately with exit 0, while a timed-out case
makes the driver continue to the rest of the list. -/
theorem batch_boundary_check_noHalt_witness :
    (∃ rep, batchRun false defaultEqual (fun _ => .ok "o") 1
        [(Test.make 0 "i" (some "o") true).1] [true] false = ⟨.exited 0, true, [rep]⟩) ∧
    batchRun false defaultEqual (fun _ => .timeout) 1
        [(Test.make 0 "i" (some "o") true).1] [true] false =
      ⟨(batchRun false defaultEqual (fun _ => .timeout) 1 [] [] true).outcome,
       (batchRun false defaultEqual (fun _ => .timeout) 1 [] [] true).flag,
       .failedByTimeout ::
         (batchRun false defaultEqual (fun _ => .timeout) 1 [] [] true).reports⟩ :=
  ⟨(batch_boundary_check_noHalt defaultEqual (fun _ => .ok "o") 1
      (Test.make 0 "i" (some "o") true).1 [] [true] false rfl).1 rfl,
   (batch_boundary_check_noHalt defaultEqual (fun _ => .timeout) 1
      (Test.make 0 "i" (some "o") true).1 [] [true] false rfl).2 rfl⟩

/-- C3 counterexample: `haltOnError = false`, the first case fails by
timeout while the SIGINT flag is set — the claim says the driver must
stop with exit 0 before starting the next case, but the code's
`continue` skips the boundary check and the second case runs (two
verdicts are reported). -/
theorem batch_timeout_skips_boundary_cex :
    batchRun false defaultEqual (fun s => if s = "i1" then .timeout else .ok "o") 1
        [(Test.make 0 "i1" (some "o") true).1, (Test.make 1 "i2" (some "o") true).1]
        [true] false =
      ⟨.exited 0, true, [.failedByTimeout, .passed]⟩ := rfl

/-- C5 (corrected): when the stress driver stops at a signalled loop
boundary it does terminate with exit status 0, but the `N` it prints is
the process-wide `Test.count` — the total number of `Test` instances
ever constructed in the process — which coincides with the number of
cases this run completed without mismatch only when the counter started
at 0 and the generator yielded raw strings. -/
theorem stress_summary_is_process_count (equal : String → String → Bool)
    (testedChild trivialChild : String → RunResult) (timeLimit : Nat)
    (gen : List GenItem) (sigs : List Bool) (flag : Bool) (n : Nat)
    (hsum : (stress true equal testedChild trivialChild timeLimit gen sigs 0
        flag).summaryN = some n) :
    (stress true equal testedChild trivialChild timeLimit gen sigs 0 flag).outcome =
      .exited 0 ∧
    n = (stress true equal testedChild trivialChild timeLimit gen sigs 0 flag).testCount ∧
    (allRaw gen = true →
      n = (stress true equal testedChild trivialChild timeLimit gen sigs 0
        flag).completed) := by
  have h1 := stressLoop_summary_is_testCount equal testedChild trivialChild timeLimit
    gen sigs 0 flag 0 0 n (by simpa [stress] using hsum)
  refine ⟨?_, ?_, ?_⟩
  · simpa [stress] using h1.1
  · simpa [stress] using h1.2
  · intro hraw
    have h2 := stressLoop_summary_is_completed equal testedChild trivialChild timeLimit
      gen sigs 0 flag 0 0 n hraw rfl (by simpa [stress] using hsum)
    simpa [stress] using h2

/-- C5 witness: a fresh process (counter 0), one raw-string case,
interrupt during it: the summary prints 1, which is both the final
counter and the number of cases completed. -/
theorem stress_summary_is_process_count_witness :
    (stress true defaultEqual (fun _ => .ok "y") (fun _ => .ok "y") 1
        [.raw "x"] [true] 0 false).outcome = .exited 0 ∧
    (1 : Nat) = (stress true defaultEqual (fun _ => .ok "y") (fun _ => .ok "y") 1
        [.raw "x"] [true] 0 false).testCount ∧
    (allRaw [GenItem.raw "x"] = true →
      (1 : Nat) = (stress true defaultEqual (fun _ => .ok "y") (fun _ => .ok "y") 1
        [.raw "x"] [true] 0 false).completed) :=
  stress_summary_is_process_count defaultEqual (fun _ => .ok "y") (fun _ => .ok "y") 1
    [.raw "x"] [true] false 1 rfl

/-- C5 counterexample: if five `Test` instances were already constructed
in the process before the stress run, the summary after one passing
case reports 6, not the 1 case this run actually ran and passed. -/
theorem stress_summary_not_run_count_cex :
    stress true defaultEqual (fun _ => .ok "y") (fun _ => .ok "y") 1
        [.raw "x"] [true] 5 false =
      ⟨.exited 0, 6, true, 2, some 6, 1⟩ ∧ (6 : Nat) ≠ 1 :=
  ⟨rfl, by decide⟩

/-- C6 (corrected): the interrupt state is a single process-wide
boolean set on the first interrupt, with a second interrupt forcing
immediate exit 0; driver loops read it at loop boundaries but never
clear it — both drivers leave a set flag set. -/
theorem interrupt_flag_set_once_never_cleared :
    SignalHandler.signal false = (true, none) ∧
    SignalHandler.signal true = (true, some 0) ∧
    (∀ (haltOnError : Bool) (equal : String → String → Bool)
       (child : String → RunResult) (timeLimit : Nat)
       (tests : List Test) (sigs : List Bool),
       (batchRun haltOnError equal child timeLimit tests sigs true).flag = true) ∧
    (∀ (equal : String → String → Bool) (testedChild trivialChild : String → RunResult)
       (timeLimit : Nat) (gen : List GenItem) (sigs : List Bool) (count : Nat),
       (stress true equal testedChild trivialChild timeLimit gen sigs count true).flag =
         true) := by
  refine ⟨rfl, rfl, batchRun_flag_true, ?_⟩
  intro equal tc tv tl gen sigs count
  simpa [stress] using stressLoop_flag_true equal tc tv tl gen sigs count 0 0

/-- C6 counterexample: the batch driver reads the set flag at the
boundary and acts on it (`sys.exit(0)`), yet the flag is still set
afterwards — it is never cleared, contrary to the claim. -/
theorem flag_not_cleared_after_read_cex :
    batchRun false defaultEqual (fun _ => .ok "o") 1
        [(Test.make 0 "i" (some "o") true).1] [true] false =
      ⟨.exited 0, true, [.passed]⟩ := rfl
